import Mathlib

/-!
Shallow embedding of the two notebooks of this repository:

* the CNN sentiment-classification notebook (`src/unnamed/part_000`), whose
  only function is `run(epochs, embed_dim, num_filters, kernel_sizes,
  dense_layer_dims, dropout)` assembling a keras model, and

* the ML-fairness notebook (`src/assignment/a2/MLFairness.ipynb`), whose only
  function is `load_embeddings(filename)` reading a word-embedding text file
  into a pandas DataFrame.

Python exceptions are modelled with `Except`; the machine-level model-building
calls into keras are modelled as a symbolic model description recording exactly
the arguments the notebook passes to each layer constructor.
-/

/-- The Python exceptions that the notebooks' code can surface. -/
inductive PyErr where
  /-- `FileNotFoundError`, raised by the builtin `open` on a missing path. -/
  | fileNotFound : PyErr
  /-- `ValueError`, raised e.g. by `float(...)` on a non-numeric string and by
  `np.vstack` on an empty or ragged list of rows. -/
  | valueError : PyErr
  /-- `NameError`, raised on reading a global name that is not defined. -/
  | nameError : PyErr
deriving DecidableEq, Repr

/-! ## `load_embeddings` (MLFairness.ipynb, cell 4)

```python
def load_embeddings(filename):
    labels = []
    rows = []
    with open(filename, encoding='utf-8') as infile:
        for i, line in enumerate(infile):
            items = line.rstrip().split(' ')
            if len(items) == 2:
                # This is a header row giving the shape of the matrix
                continue
            labels.append(items[0])
            values = np.array([float(x) for x in items[1:]], 'f')
            rows.append(values)
    arr = np.vstack(rows)
    return pd.DataFrame(arr, index=labels, dtype='f')
```

A file system is a partial map from filenames to file contents; contents are
the list of lines yielded by iterating over the open file (each such line ends
in a newline except possibly the last, but `rstrip()` removes all trailing
whitespace, so we keep lines newline-free and still apply `pyRstrip`).
The numeric conversion `float(x)` (composed with the float32 narrowing of
`np.array(..., 'f')`) is a parameter `pf : String -> Option Rat` of the
embedding: `none` models the `ValueError` that `float` raises on a
non-numeric string. -/

/-- The whitespace characters stripped by Python's `str.rstrip()` (ASCII). -/
def isPyWhitespace (c : Char) : Bool :=
  c = ' ' || c = '\t' || c = '\n' || c = '\r' || c = '\x0b' || c = '\x0c'

/-- Python's `line.rstrip()`: drop trailing whitespace. -/
def pyRstrip (s : String) : String :=
  String.mk ((s.toList.reverse.dropWhile isPyWhitespace).reverse)

/-- Python's `s.split(' ')` on a character list: split at every single space,
keeping empty fields, and returning `[""]` on the empty string. -/
def pySplitSpace : List Char → List (List Char)
  | [] => [[]]
  | c :: rest =>
    let r := pySplitSpace rest
    if c = ' ' then [] :: r else (c :: r.headD []) :: r.tail

/-- `line.rstrip().split(' ')`. -/
def itemsOf (line : String) : List String :=
  (pySplitSpace (pyRstrip line).toList).map (fun cs => String.mk cs)

/-- The guard of the loop body: a line is retained (contributes a label and a
row) iff `len(items) != 2`. -/
def retainB (line : String) : Bool :=
  (itemsOf line).length != 2

/-- `items[0]` of a line (`split` never returns an empty list). -/
def wordOf (line : String) : String :=
  (itemsOf line).headD ""

/-- `[float(x) for x in items[1:]]`, under the parsing function `pf`, when
every field parses. -/
def vecOf (pf : String → Option ℚ) (line : String) : List ℚ :=
  (itemsOf line).tail.map (fun x => (pf x).getD 0)

/-- `[float(x) for x in items[1:]]`: each `float(x)` raises `ValueError`
(modelled by `pf x = none`) on a non-numeric field. -/
def parseValues (pf : String → Option ℚ) : List String → Except PyErr (List ℚ)
  | [] => .ok []
  | x :: xs =>
    match pf x with
    | none => .error .valueError
    | some q =>
      match parseValues pf xs with
      | .error e => .error e
      | .ok qs => .ok (q :: qs)

/-- The `for` loop of `load_embeddings`: `labels` and `rows` are the two
accumulator lists mutated by the loop body. -/
def readLines (pf : String → Option ℚ) :
    List String → List String → List (List ℚ) →
    Except PyErr (List String × List (List ℚ))
  | [], labels, rows => .ok (labels, rows)
  | line :: rest, labels, rows =>
    if (itemsOf line).length = 2 then
      readLines pf rest labels rows
    else
      match parseValues pf (itemsOf line).tail with
      | .error e => .error e
      | .ok values =>
          readLines pf rest (labels ++ [(itemsOf line).headD ""]) (rows ++ [values])

/-- `np.vstack(rows)` on a list of 1-D arrays: raises `ValueError` on the
empty list ("need at least one array to concatenate") and when the rows do
not all have the same length. -/
def np_vstack (rows : List (List ℚ)) : Except PyErr (List (List ℚ)) :=
  match rows with
  | [] => .error .valueError
  | r :: rs => if rs.all (fun x => x.length == r.length) then .ok (r :: rs) else .error .valueError

/-- `pd.DataFrame(arr, index=labels, dtype='f')`: row labels plus the stacked
numeric matrix. -/
structure DataFrame where
  index : List String
  values : List (List ℚ)
deriving DecidableEq, Repr

/-- A file system: filenames to file contents (as lists of lines), `none`
when the file does not exist (so `open` raises `FileNotFoundError`). -/
def FileSystem : Type := String → Option (List String)

instance {ε α : Type} [DecidableEq ε] [DecidableEq α] : DecidableEq (Except ε α) :=
  fun a b =>
    match a, b with
    | .error x, .error y =>
      if h : x = y then isTrue (by rw [h]) else isFalse (by intro hc; cases hc; exact h rfl)
    | .ok x, .ok y =>
      if h : x = y then isTrue (by rw [h]) else isFalse (by intro hc; cases hc; exact h rfl)
    | .error x, .ok y => isFalse (fun hc => Except.noConfusion hc)
    | .ok x, .error y => isFalse (fun hc => Except.noConfusion hc)

/-- `load_embeddings(filename)` itself. -/
def load_embeddings (pf : String → Option ℚ) (fs : FileSystem) (filename : String) :
    Except PyErr DataFrame :=
  match fs filename with
  | none => .error .fileNotFound
  | some lines =>
    match readLines pf lines [] [] with
    | .error e => .error e
    | .ok (labels, rows) =>
      match np_vstack rows with
      | .error e => .error e
      | .ok arr => .ok ⟨labels, arr⟩

/-- A concrete instance of the parsing parameter: the decimal fragment of
Python's `float` builtin (optional sign, digits, optional fractional part),
used to evaluate the embedding on concrete inputs. -/
def pyFloatDec (s : String) : Option ℚ :=
  let sc : Bool × List Char :=
    match s.toList with
    | '-' :: rest => (true, rest)
    | '+' :: rest => (false, rest)
    | cs => (false, cs)
  let natVal : List Char → Nat := fun cs => cs.foldl (fun n c => 10 * n + (c.toNat - 48)) 0
  let mkSigned : Nat → ℤ := fun n => if sc.1 then -(n : ℤ) else (n : ℤ)
  match sc.2.splitOn '.' with
  | [intPart] =>
    if intPart ≠ [] ∧ intPart.all Char.isDigit then
      some ((mkSigned (natVal intPart) : ℤ) : ℚ)
    else none
  | [intPart, fracPart] =>
    if (intPart ≠ [] ∨ fracPart ≠ []) ∧ intPart.all Char.isDigit ∧ fracPart.all Char.isDigit then
      some (((mkSigned (natVal intPart * 10 ^ fracPart.length + natVal fracPart) : ℤ) : ℚ)
              / ((10 ^ fracPart.length : ℕ) : ℚ))
    else none
  | _ => none

/-! ## `run` (the CNN notebook, `src/unnamed/part_000`)

```python
def run(
    epochs=10, embed_dim=5, num_filters=[2,2,2], kernel_sizes=[2,3,4],
    dense_layer_dims=[512, 256], dropout=0.4
):
    num_classes = len(ds.target_names)
    wordids = keras.layers.Input(shape=(max_len,))
    h = keras.layers.Embedding(ds.vocab.size, embed_dim, input_length=max_len)(wordids)
    conv_layers_for_all_kernel_sizes = []
    for filters, kernel_size in zip(kernel_sizes, num_filters):
        conv_layer = keras.layers.Conv1D(filters=filters, kernel_size=kernel_size, activation='relu')(h)
        conv_layer = keras.layers.GlobalMaxPooling1D()(conv_layer)
        conv_layers_for_all_kernel_sizes.append(conv_layer)
    h = keras.layers.concatenate(conv_layers_for_all_kernel_sizes, axis=1)
    h = keras.layers.Dropout(rate=dropout_rate)(h)
    for dim in dense_layer_dims:
        h = keras.layers.Dense(dim, activation='relu')(h)
    prediction = keras.layers.Dense(num_classes, activation='softmax')(h)
    model = keras.Model(inputs=wordids, outputs=prediction)
    model.compile(optimizer='adam', loss='sparse_categorical_crossentropy', metrics=['accuracy'])
    print({'epochs': epochs, 'embed_dim': embed_dim, 'num_filters': num_filters,
           'kernel_sizes': kernel_sizes, 'dense_layer_dims': dense_layer_dims, 'dropout': dropout})
    model.reset_states()
    model.fit(train_x, train_y, epochs=epochs)
    return model
```

Two names in the body are free (globals of the notebook session): `ds` (the
external SST dataset object, of which `run` reads `ds.target_names` and
`ds.vocab.size`) and `dropout_rate`, which no cell of the saved notebook ever
assigns: the `dropout` parameter is never read by a layer constructor. The
model the keras calls build is recorded symbolically: each constructor call
becomes a record of exactly the arguments passed to it. -/

/-- Activation functions passed to the keras layer constructors. -/
inductive Activation where
  | relu : Activation
  | softmax : Activation
deriving DecidableEq, Repr

/-- One `Conv1D(filters=..., kernel_size=..., activation='relu')` branch,
followed in the code by `GlobalMaxPooling1D()`. -/
structure ConvBranch where
  filters : Nat
  kernel_size : Nat
  activation : Activation
deriving DecidableEq, Repr

/-- A `Dense(units, activation=...)` layer. -/
structure DenseLayer where
  units : Nat
  activation : Activation
deriving DecidableEq, Repr

/-- The externally loaded SST dataset, as far as `run` reads it:
`ds.vocab.size` and `len(ds.target_names)`. -/
structure DsInfo where
  vocab_size : Nat
  num_classes : Nat
deriving DecidableEq, Repr

/-- `max_len = 40`, set in the data-loading cell of the notebook. -/
def max_len : Nat := 40

/-- The notebook-session globals that `run` reads besides `ds`: just
`dropout_rate`, `none` when no cell has assigned it (as in the saved
notebook, where reading it raises `NameError`). -/
structure Globals where
  dropout_rate : Option ℚ
deriving DecidableEq, Repr

/-- The keyword arguments of `run`, with the declared defaults captured by
`defaultArgs` below. -/
structure RunArgs where
  epochs : Nat
  embed_dim : Nat
  num_filters : List Nat
  kernel_sizes : List Nat
  dense_layer_dims : List Nat
  dropout : ℚ
deriving DecidableEq, Repr

/-- The declared defaults:
`epochs=10, embed_dim=5, num_filters=[2,2,2], kernel_sizes=[2,3,4],
dense_layer_dims=[512, 256], dropout=0.4`. -/
def defaultArgs : RunArgs :=
  ⟨10, 5, [2, 2, 2], [2, 3, 4], [512, 256], 2 / 5⟩

/-- The symbolic record of the model the keras calls assemble: the layers in
the order they are applied, with the arguments each constructor receives,
plus the `compile` arguments. -/
structure ModelSpec where
  input_len : Nat
  embedding_vocab : Nat
  embedding_dim : Nat
  embedding_input_length : Nat
  branches : List ConvBranch
  concat_axis : Nat
  dropout_rate : ℚ
  hidden_layers : List DenseLayer
  output_layer : DenseLayer
  optimizer : String
  loss : String
deriving DecidableEq, Repr

/-- The argument dictionary printed by `run` right before fitting. -/
structure PrintedConfig where
  epochs : Nat
  embed_dim : Nat
  num_filters : List Nat
  kernel_sizes : List Nat
  dense_layer_dims : List Nat
  dropout : ℚ
deriving DecidableEq, Repr

/-- The observable effects of `run` after the model is assembled, in order:
the `print` of the configuration dictionary, then `model.fit`. -/
inductive RunEvent where
  | printConfig : PrintedConfig → RunEvent
  | fitModel : (epochs : Nat) → RunEvent
deriving DecidableEq, Repr

/-- The loop `for filters, kernel_size in zip(kernel_sizes, num_filters)`:
NOTE the binding order — `filters` iterates over `kernel_sizes` and
`kernel_size` over `num_filters`, exactly as in the source. -/
def conv_layers_for_all_kernel_sizes (kernel_sizes num_filters : List Nat) :
    List ConvBranch :=
  (kernel_sizes.zip num_filters).map (fun fk => ⟨fk.1, fk.2, Activation.relu⟩)

/-- `run` itself.  Reading the free global `dropout_rate` raises `NameError`
when it is unassigned; otherwise the model is assembled and the `print` and
`model.fit` effects happen in that order. -/
def run (ds : DsInfo) (g : Globals) (a : RunArgs) :
    Except PyErr (ModelSpec × List RunEvent) :=
  match g.dropout_rate with
  | none => .error .nameError
  | some r =>
    .ok
      (⟨max_len, ds.vocab_size, a.embed_dim, max_len,
        conv_layers_for_all_kernel_sizes a.kernel_sizes a.num_filters,
        1, r,
        a.dense_layer_dims.map (fun d => ⟨d, Activation.relu⟩),
        ⟨ds.num_classes, Activation.softmax⟩,
        "adam", "sparse_categorical_crossentropy"⟩,
       [RunEvent.printConfig
          ⟨a.epochs, a.embed_dim, a.num_filters, a.kernel_sizes,
           a.dense_layer_dims, a.dropout⟩,
        RunEvent.fitModel a.epochs])

/-- The flattening of a `ModelSpec` into the linear order in which `run`
wires the layers together (each convolution branch contributes its `Conv1D`
followed by its `GlobalMaxPooling1D`). -/
inductive Layer where
  | input : (len : Nat) → Layer
  | embedding : (vocab dim input_length : Nat) → Layer
  | conv1d : (filters kernel_size : Nat) → Activation → Layer
  | globalMaxPooling1D : Layer
  | concat : (axis : Nat) → Layer
  | dropoutLayer : (rate : ℚ) → Layer
  | dense : (units : Nat) → Activation → Layer
deriving DecidableEq, Repr

/-- The layer sequence described by a `ModelSpec`. -/
def ModelSpec.layerSequence (m : ModelSpec) : List Layer :=
  [Layer.input m.input_len,
   Layer.embedding m.embedding_vocab m.embedding_dim m.embedding_input_length]
  ++ (m.branches.flatMap fun b =>
        [Layer.conv1d b.filters b.kernel_size b.activation, Layer.globalMaxPooling1D])
  ++ [Layer.concat m.concat_axis, Layer.dropoutLayer m.dropout_rate]
  ++ m.hidden_layers.map (fun d => Layer.dense d.units d.activation)
  ++ [Layer.dense m.output_layer.units m.output_layer.activation]

/-- The SST dataset as loaded in the notebook's recorded session: the binary
label scheme has two target names, and the build log reports a vocabulary of
16,474 words. -/
def dsSST : DsInfo := ⟨16474, 2⟩

/-- A session state in which some cell assigned `dropout_rate` (the recorded
outputs show the `run` calls completing, so the live kernel had one). -/
def gDefined : Globals := ⟨some (2 / 5)⟩

/-- The session state of a fresh top-to-bottom execution of the notebook:
no cell assigns `dropout_rate`. -/
def gFresh : Globals := ⟨none⟩

/-- The nine tuning cells, `model1 = run(embed_dim=50)` through
`model9 = run(epochs=5, embed_dim=25, dropout=0.8, dense_layer_dims=[128, 64],
num_filters=[2,2,2], kernel_sizes=[2,4,6])`: each is an independent call of
`run` on literal arguments, the unmentioned keywords keeping their defaults. -/
def model1Args : RunArgs := { defaultArgs with embed_dim := 50 }

/-- `model9 = run(epochs=5, embed_dim=25, dropout=0.8,
dense_layer_dims=[128, 64], num_filters=[2,2,2], kernel_sizes=[2,4,6])`. -/
def model9Args : RunArgs :=
  { defaultArgs with
      epochs := 5, embed_dim := 25, dropout := 4 / 5,
      dense_layer_dims := [128, 64], num_filters := [2, 2, 2],
      kernel_sizes := [2, 4, 6] }

/-! ## Helper lemmas -/

/-- When every field parses, the comprehension `[float(x) for x in xs]`
returns exactly the parsed values. -/
theorem parseValues_eq_of_isSome (pf : String → Option ℚ) (xs : List String)
    (h : ∀ x ∈ xs, (pf x).isSome = true) :
    parseValues pf xs = Except.ok (xs.map fun x => (pf x).getD 0) := by
  induction xs with
  | nil => rfl
  | cons x xs ih =>
    have hx : (pf x).isSome = true := h x (List.mem_cons_self x xs)
    obtain ⟨q, hq⟩ := Option.isSome_iff_exists.mp hx
    have ihx := ih (fun y hy => h y (List.mem_cons_of_mem x hy))
    simp [parseValues, hq, ihx]

/-- The loop of `load_embeddings` behaves identically on a file with its
two-field lines removed: such lines touch neither accumulator. -/
theorem readLines_filter_retained (pf : String → Option ℚ) (lines : List String)
    (labels : List String) (rows : List (List ℚ)) :
    readLines pf lines labels rows = readLines pf (lines.filter retainB) labels rows := by
  induction lines generalizing labels rows with
  | nil => rfl
  | cons l rest ih =>
    by_cases h : (itemsOf l).length = 2
    · have hr : retainB l = false := by simp [retainB, h]
      rw [List.filter_cons_of_neg (by simp [hr])]
      simp only [readLines, if_pos h]
      exact ih labels rows
    · have hr : retainB l = true := by simp [retainB, h]
      rw [List.filter_cons_of_pos hr]
      simp only [readLines, if_neg h]
      cases hp : parseValues pf (itemsOf l).tail with
      | error e => rfl
      | ok v => exact ih _ _

/-- When every retained line's fields parse, the loop appends exactly the
retained labels and rows, in file order. -/
theorem readLines_eq_of_wellformed (pf : String → Option ℚ) (lines : List String)
    (labels : List String) (rows : List (List ℚ))
    (h : ∀ l ∈ lines, retainB l = true → ∀ x ∈ (itemsOf l).tail, (pf x).isSome = true) :
    readLines pf lines labels rows
      = Except.ok (labels ++ (lines.filter retainB).map wordOf,
                   rows ++ (lines.filter retainB).map (vecOf pf)) := by
  induction lines generalizing labels rows with
  | nil => simp [readLines]
  | cons l rest ih =>
    have ihrest : ∀ labels rows, readLines pf rest labels rows
        = Except.ok (labels ++ (rest.filter retainB).map wordOf,
                     rows ++ (rest.filter retainB).map (vecOf pf)) :=
      fun labels rows => ih labels rows (fun y hy => h y (List.mem_cons_of_mem l hy))
    by_cases hl : (itemsOf l).length = 2
    · have hr : retainB l = false := by simp [retainB, hl]
      rw [List.filter_cons_of_neg (by simp [hr])]
      simp only [readLines, if_pos hl]
      exact ihrest labels rows
    · have hr : retainB l = true := by simp [retainB, hl]
      have hparse := parseValues_eq_of_isSome pf (itemsOf l).tail
        (h l (List.mem_cons_self l rest) hr)
      rw [List.filter_cons_of_pos hr]
      simp only [readLines, if_neg hl, hparse]
      rw [ihrest (labels ++ [(itemsOf l).headD ""]) (rows ++ [(itemsOf l).tail.map fun x => (pf x).getD 0])]
      simp [wordOf, vecOf, List.append_assoc]

/-- Unfolding `load_embeddings` on an existing file. -/
theorem load_embeddings_some (pf : String → Option ℚ) (fs : FileSystem)
    (filename : String) (lines : List String) (h : fs filename = some lines) :
    load_embeddings pf fs filename
      = (match readLines pf lines [] [] with
         | .error e => .error e
         | .ok (labels, rows) =>
           match np_vstack rows with
           | .error e => .error e
           | .ok arr => .ok ⟨labels, arr⟩) := by
  unfold load_embeddings
  rw [h]

/-! ## Claims -/

/-- C3: when the embeddings file named by `filename` does not exist,
`load_embeddings` surfaces `FileNotFoundError` directly from the file-open
call — unhandled, with no recovery or custom wrapping — and returns no
table. -/
theorem load_embeddings_missing_file_raises_filenotfound
    (pf : String → Option ℚ) (fs : FileSystem) (filename : String)
    (h : fs filename = none) :
    load_embeddings pf fs filename = Except.error PyErr.fileNotFound := by
  unfold load_embeddings
  rw [h]

theorem load_embeddings_missing_file_raises_filenotfound_witness :
    (fun _ => none : FileSystem) "data/glove.42B.300d.txt" = none ∧
    load_embeddings pyFloatDec (fun _ => none) "data/glove.42B.300d.txt"
      = Except.error PyErr.fileNotFound :=
  ⟨rfl, load_embeddings_missing_file_raises_filenotfound pyFloatDec
    (fun _ => none) "data/glove.42B.300d.txt" rfl⟩

/-- C8: `load_embeddings` is deterministic — two invocations on files with
identical contents give identical results: the same row labels in the same
order and the same value in every cell. -/
theorem load_embeddings_deterministic
    (pf : String → Option ℚ) (fs₁ fs₂ : FileSystem) (n₁ n₂ : String)
    (h : fs₁ n₁ = fs₂ n₂) :
    load_embeddings pf fs₁ n₁ = load_embeddings pf fs₂ n₂ := by
  unfold load_embeddings
  rw [h]

theorem load_embeddings_deterministic_witness :
    (fun _ => some ["2 300", "a 1 2"] : FileSystem) "copy1.txt"
      = (fun n => if n = "copy2.txt" then some ["2 300", "a 1 2"] else none : FileSystem) "copy2.txt" ∧
    load_embeddings pyFloatDec (fun _ => some ["2 300", "a 1 2"]) "copy1.txt"
      = load_embeddings pyFloatDec
          (fun n => if n = "copy2.txt" then some ["2 300", "a 1 2"] else none) "copy2.txt" :=
  ⟨by decide, load_embeddings_deterministic pyFloatDec
    (fun _ => some ["2 300", "a 1 2"])
    (fun n => if n = "copy2.txt" then some ["2 300", "a 1 2"] else none)
    "copy1.txt" "copy2.txt" (by decide)⟩

/-- C9: every line splitting into exactly two space-separated fields is
skipped wherever it occurs in the file — the result on any file equals the
result on the same file with all such lines removed, so such a line never
contributes a row label or a vector (in particular a one-dimensional data
line `word value` is silently dropped). -/
theorem load_embeddings_skips_all_two_field_lines
    (pf : String → Option ℚ) (lines : List String) (filename : String) :
    load_embeddings pf (fun _ => some lines) filename
      = load_embeddings pf (fun _ => some (lines.filter retainB)) filename := by
  rw [load_embeddings_some pf _ filename lines rfl,
      load_embeddings_some pf _ filename (lines.filter retainB) rfl,
      readLines_filter_retained]

/-- C10: on a file that is empty, or whose every line splits into exactly two
fields (e.g. only a dimensions header), `load_embeddings` does not return an
empty table: stacking the empty list of rows raises an error. -/
theorem load_embeddings_no_retained_rows_errors
    (pf : String → Option ℚ) (fs : FileSystem) (filename : String) (lines : List String)
    (hfs : fs filename = some lines)
    (hall : lines.filter retainB = []) :
    load_embeddings pf fs filename = Except.error PyErr.valueError := by
  rw [load_embeddings_some pf fs filename lines hfs, readLines_filter_retained, hall]
  rfl

theorem load_embeddings_no_retained_rows_errors_witness :
    (fun _ => some ["2 300"] : FileSystem) "emb.txt" = some ["2 300"] ∧
    ["2 300"].filter retainB = [] ∧
    load_embeddings pyFloatDec (fun _ => some ["2 300"]) "emb.txt"
      = Except.error PyErr.valueError :=
  ⟨rfl, by decide, load_embeddings_no_retained_rows_errors pyFloatDec
    (fun _ => some ["2 300"]) "emb.txt" ["2 300"] rfl (by decide)⟩

/-- C5 counterexample: the file `a 1 2` / `b 1 2 3` is well-formed in the
claim's sense — every line is a word followed by numeric fields separated by
single spaces, and none is a two-field header — yet `load_embeddings` does
not return the table with labels `a`, `b`: `np.vstack` raises `ValueError`
because the two rows have different lengths. -/
theorem load_embeddings_wellformed_ragged_fails :
    (∀ l ∈ ["a 1 2", "b 1 2 3"], retainB l = true) ∧
    (∀ l ∈ ["a 1 2", "b 1 2 3"], ∀ x ∈ (itemsOf l).tail, (pyFloatDec x).isSome = true) ∧
    load_embeddings pyFloatDec (fun _ => some ["a 1 2", "b 1 2 3"]) "emb.txt"
      = Except.error PyErr.valueError :=
  ⟨by decide, by decide, by decide⟩

/-- C5 (amended): for every well-formed embeddings file (each non-header line
a word followed by numeric fields, single-space separated) **that retains at
least one line and whose retained lines all carry the same number of
fields**, `load_embeddings` returns the table whose row labels are, in file
order, the first field of each retained line, and whose i-th row is the
remaining fields of that line parsed as floating-point values. -/
theorem load_embeddings_wellformed_uniform
    (pf : String → Option ℚ) (fs : FileSystem) (filename : String) (lines : List String)
    (hfs : fs filename = some lines)
    (hnum : ∀ l ∈ lines, retainB l = true → ∀ x ∈ (itemsOf l).tail, (pf x).isSome = true)
    (hne : lines.filter retainB ≠ [])
    (hlen : ∀ l₁ ∈ lines.filter retainB, ∀ l₂ ∈ lines.filter retainB,
        (itemsOf l₁).tail.length = (itemsOf l₂).tail.length) :
    load_embeddings pf fs filename
      = Except.ok ⟨(lines.filter retainB).map wordOf,
                   (lines.filter retainB).map (vecOf pf)⟩ := by
  rw [load_embeddings_some pf fs filename lines hfs,
      readLines_eq_of_wellformed pf lines [] [] hnum]
  cases hL : lines.filter retainB with
  | nil => exact absurd hL hne
  | cons l0 ls =>
    have hall : (ls.map (vecOf pf)).all (fun x => x.length == (vecOf pf l0).length) = true := by
      rw [List.all_eq_true]
      intro x hx
      obtain ⟨l, hl, rfl⟩ := List.mem_map.mp hx
      have h1 : l ∈ lines.filter retainB := by rw [hL]; exact List.mem_cons_of_mem l0 hl
      have h0 : l0 ∈ lines.filter retainB := by rw [hL]; exact List.mem_cons_self l0 ls
      have hll := hlen l h1 l0 h0
      simp only [vecOf, List.length_map, hll, beq_self_eq_true]
    simp only [List.nil_append, List.map_cons, np_vstack, hall, if_pos]

theorem load_embeddings_wellformed_uniform_witness :
    (fun _ => some ["2 300", "a 1 2", "b -3 4"] : FileSystem) "emb.txt"
      = some ["2 300", "a 1 2", "b -3 4"]
    ∧ (∀ l ∈ ["2 300", "a 1 2", "b -3 4"], retainB l = true →
        ∀ x ∈ (itemsOf l).tail, (pyFloatDec x).isSome = true)
    ∧ ["2 300", "a 1 2", "b -3 4"].filter retainB ≠ []
    ∧ (∀ l₁ ∈ ["2 300", "a 1 2", "b -3 4"].filter retainB,
        ∀ l₂ ∈ ["2 300", "a 1 2", "b -3 4"].filter retainB,
          (itemsOf l₁).tail.length = (itemsOf l₂).tail.length)
    ∧ load_embeddings pyFloatDec (fun _ => some ["2 300", "a 1 2", "b -3 4"]) "emb.txt"
        = Except.ok ⟨["a", "b"], [[1, 2], [-3, 4]]⟩ :=
  ⟨rfl, by decide, by decide, by decide,
   load_embeddings_wellformed_uniform pyFloatDec
     (fun _ => some ["2 300", "a 1 2", "b -3 4"]) "emb.txt"
     ["2 300", "a 1 2", "b -3 4"] rfl (by decide) (by decide) (by decide)⟩

/-- C1: evaluating `run` at its declared defaults (in a session where the
free global `dropout_rate` is assigned, so the call completes): because the
loop is `for filters, kernel_size in zip(kernel_sizes, num_filters)`, the
i-th `Conv1D` receives `filters = kernel_sizes[i]` and
`kernel_size = num_filters[i]` — with `num_filters = [2,2,2]` and
`kernel_sizes = [2,3,4]` the branches are built as
`(filters, kernel_size) = (2,2), (3,2), (4,2)`, not `(2,2), (2,3), (2,4)`
as the claim (and the code's own comment) describes. -/
theorem run_default_swaps_filters_and_kernel_sizes :
    ((run dsSST gDefined defaultArgs).map fun p => p.1.branches)
      = Except.ok [⟨2, 2, Activation.relu⟩, ⟨3, 2, Activation.relu⟩, ⟨4, 2, Activation.relu⟩]
    ∧ defaultArgs.num_filters = [2, 2, 2]
    ∧ defaultArgs.kernel_sizes = [2, 3, 4] :=
  ⟨rfl, rfl, rfl⟩

/-- C2: the `Dropout` layer is constructed with `rate=dropout_rate`, a free
global of the session, not with `run`'s `dropout` parameter: a call passing
`dropout=0.7` in a session where `dropout_rate` is `0.5` builds a Dropout
layer of rate `0.5`, and in a fresh session (where no cell assigns
`dropout_rate`) the same call raises `NameError` instead. -/
theorem run_dropout_layer_ignores_dropout_argument :
    ((run dsSST ⟨some (1 / 2)⟩ { defaultArgs with dropout := 7 / 10 }).map
        fun p => p.1.dropout_rate)
      = Except.ok (1 / 2)
    ∧ (1 / 2 : ℚ) ≠ 7 / 10
    ∧ run dsSST gFresh { defaultArgs with dropout := 7 / 10 }
        = Except.error PyErr.nameError :=
  ⟨rfl, by norm_num, rfl⟩

/-- C4: a missing embeddings file is not the only notebook-code failure mode:
invoking `run` — with its declared default arguments — in a fresh
top-to-bottom execution of the notebook raises `NameError` from the
notebook's own `Dropout(rate=dropout_rate)` line, because no cell assigns
`dropout_rate`. -/
theorem run_fresh_session_raises_nameerror :
    run dsSST gFresh defaultArgs = Except.error PyErr.nameError := rfl

/-- C6: whenever the session global `dropout_rate` holds a value `r` (so the
call completes, as in the recorded session), `run` assembles the layers in
the fixed sequence: an Input of length `max_len`, an Embedding over the
vocabulary with `embed_dim` dimensions, the convolution-plus-global-max-
pooling branches, a concatenation (axis 1) of the pooled branch outputs, a
Dropout layer, one relu Dense layer per entry of `dense_layer_dims` in
order, and a final softmax Dense layer with `num_classes` units; the model
is compiled with the adam optimizer and sparse categorical cross-entropy
loss before fitting. -/
theorem run_assembles_fixed_layer_sequence
    (ds : DsInfo) (g : Globals) (a : RunArgs) (r : ℚ)
    (h : g.dropout_rate = some r) :
    ∃ m ev, run ds g a = Except.ok (m, ev)
      ∧ m.layerSequence =
          [Layer.input max_len,
           Layer.embedding ds.vocab_size a.embed_dim max_len]
          ++ ((a.kernel_sizes.zip a.num_filters).flatMap fun fk =>
                [Layer.conv1d fk.1 fk.2 Activation.relu, Layer.globalMaxPooling1D])
          ++ [Layer.concat 1, Layer.dropoutLayer r]
          ++ a.dense_layer_dims.map (fun d => Layer.dense d Activation.relu)
          ++ [Layer.dense ds.num_classes Activation.softmax]
      ∧ m.optimizer = "adam" ∧ m.loss = "sparse_categorical_crossentropy" := by
  cases g with
  | mk d =>
    simp only at h
    subst h
    refine ⟨_, _, rfl, ?_, rfl, rfl⟩
    simp only [ModelSpec.layerSequence, conv_layers_for_all_kernel_sizes, List.flatMap_map,
      List.map_map]
    rfl

theorem run_assembles_fixed_layer_sequence_witness :
    gDefined.dropout_rate = some (2 / 5)
    ∧ (∃ m ev, run dsSST gDefined defaultArgs = Except.ok (m, ev)
        ∧ m.layerSequence =
            [Layer.input max_len,
             Layer.embedding dsSST.vocab_size defaultArgs.embed_dim max_len]
            ++ ((defaultArgs.kernel_sizes.zip defaultArgs.num_filters).flatMap fun fk =>
                  [Layer.conv1d fk.1 fk.2 Activation.relu, Layer.globalMaxPooling1D])
            ++ [Layer.concat 1, Layer.dropoutLayer (2 / 5)]
            ++ defaultArgs.dense_layer_dims.map (fun d => Layer.dense d Activation.relu)
            ++ [Layer.dense dsSST.num_classes Activation.softmax]
        ∧ m.optimizer = "adam" ∧ m.loss = "sparse_categorical_crossentropy") :=
  ⟨rfl, run_assembles_fixed_layer_sequence dsSST gDefined defaultArgs (2 / 5) rfl⟩

/-- C7: whenever the session global `dropout_rate` holds a value (so the call
completes, as in the recorded session), every call of `run` prints the
complete configuration dictionary it was invoked with — `epochs`,
`embed_dim`, `num_filters`, `kernel_sizes`, `dense_layer_dims` and
`dropout`, the declared defaults standing in for keywords the caller did
not supply — and the print precedes `model.fit`.  (Each tuning cell,
`model1Args` through `model9Args`, is one independent literal-argument
instance of `a`.) -/
theorem run_prints_full_config_before_fit
    (ds : DsInfo) (g : Globals) (a : RunArgs) (r : ℚ)
    (h : g.dropout_rate = some r) :
    ∃ m, run ds g a = Except.ok (m,
      [RunEvent.printConfig
         ⟨a.epochs, a.embed_dim, a.num_filters, a.kernel_sizes,
          a.dense_layer_dims, a.dropout⟩,
       RunEvent.fitModel a.epochs]) := by
  cases g with
  | mk d =>
    simp only at h
    subst h
    exact ⟨_, rfl⟩

theorem run_prints_full_config_before_fit_witness :
    gDefined.dropout_rate = some (2 / 5)
    ∧ (∃ m, run dsSST gDefined model1Args = Except.ok (m,
        [RunEvent.printConfig ⟨10, 50, [2, 2, 2], [2, 3, 4], [512, 256], 2 / 5⟩,
         RunEvent.fitModel 10])) :=
  ⟨rfl, run_prints_full_config_before_fit dsSST gDefined model1Args (2 / 5) rfl⟩
